import Mathlib

/-!
Verification development for the open_green_compute telemetry logger.

The Rust sources are shallowly embedded:
* the dual-cadence sampling loop of `main.rs` becomes `loopTick` / `loopState`
  over abstract sensor sample streams;
* each sensor's `measure` becomes a pure function of an explicit environment
  describing the behaviour of the backing HTTP API or I2C device;
* a Rust panic (an `unwrap` on an `Err`, or an out-of-bounds index) is modelled
  as the `Option` value `none`: the function does not return a row.
Floating-point readings are modelled as rationals; none of the verified
properties depends on rounding, only on control flow and on sign tests.
-/

/-- Outcome of reading and parsing an HTTP response body
(`read_to_string` followed by a serde parse in the Rust code). -/
inductive BodyRead (α : Type) where
  | readErr : BodyRead α
  | parseErr : BodyRead α
  | ok : α → BodyRead α
deriving DecidableEq

/-- Outcome of one blocking HTTP request: a transport error, or a response
with a status code and a body. -/
inductive Fetch (α : Type) where
  | transportErr : Fetch α
  | response : Nat → BodyRead α → Fetch α
deriving DecidableEq

/-- The early-return guard shared by all the HTTP sensors: the fetch failed if
the transport errored, the status was not 200, or the body could not be read
or parsed. -/
def Fetch.failed {α : Type} : Fetch α → Bool
  | .transportErr => true
  | .response status body =>
    status != 200 ||
      (match body with
       | .ok _ => false
       | _ => true)

/-! ## Dual-cadence scheduler (`main.rs`, instrumentation loop) -/

/-- A sensor as the scheduler sees it: a declared metric count (the length of
`get_names()`) and the row `measure()` would produce at each tick. -/
structure SensorModel where
  width : Nat
  sample : Nat → List ℚ

/-- Concatenation of the rows of a list of sensors at one tick, in configured
order (`val.extend(tmp)` over the loop's sensor vector). -/
def sampleJoin (sensors : List SensorModel) (t : Nat) : List ℚ :=
  (sensors.map (fun s => s.sample t)).flatten

/-- The mutable state of the instrumentation loop: the wrap-around tick
counter `j` and the slow-loop `cache`. -/
structure LoopState where
  j : Nat
  cache : List ℚ
deriving DecidableEq

/-- What one iteration of the loop produces: the emitted row, whether the
slow loop was resampled this tick, and the state for the next tick. -/
structure TickOutput where
  row : List ℚ
  resampled : Bool
  next : LoopState
deriving DecidableEq

/-- One iteration of the loop in `main`: push the timestamp, extend with every
fast sensor's row, resample the slow sensors into the cache when `j == 0`,
extend with the cache, then increment `j` and wrap it at `D`
(`slow_loop_delay`). -/
def loopTick (D : Nat) (tstamp : Nat → ℚ) (fast slow : List SensorModel)
    (t : Nat) (st : LoopState) : TickOutput :=
  { row := (tstamp t :: sampleJoin fast t) ++
      (if st.j = 0 then sampleJoin slow t else st.cache)
    resampled := st.j == 0
    next :=
      { j := if st.j + 1 = D then 0 else st.j + 1
        cache := if st.j = 0 then sampleJoin slow t else st.cache } }

/-- The loop state at the start of tick `t`; the loop starts with `j = 0` and
an empty cache. -/
def loopState (D : Nat) (tstamp : Nat → ℚ) (fast slow : List SensorModel) :
    Nat → LoopState
  | 0 => ⟨0, []⟩
  | t + 1 => (loopTick D tstamp fast slow t (loopState D tstamp fast slow t)).next

/-- The output of the loop iteration at tick `t`. -/
def loopOutput (D : Nat) (tstamp : Nat → ℚ) (fast slow : List SensorModel)
    (t : Nat) : TickOutput :=
  loopTick D tstamp fast slow t (loopState D tstamp fast slow t)

theorem succ_mod_helper (D t : Nat) (hD : 1 ≤ D) :
    (t + 1) % D = if t % D + 1 = D then 0 else t % D + 1 := by
  have hlt : t % D < D := Nat.mod_lt _ hD
  have key : (t + 1) % D = (t % D + 1) % D := (Nat.mod_add_mod t D 1).symm
  by_cases h : t % D + 1 = D
  · rw [if_pos h, key, h, Nat.mod_self]
  · rw [if_neg h, key, Nat.mod_eq_of_lt (by omega)]

theorem loopState_j (D : Nat) (tstamp : Nat → ℚ) (fast slow : List SensorModel)
    (hD : 1 ≤ D) : ∀ t, (loopState D tstamp fast slow t).j = t % D := by
  intro t
  induction t with
  | zero => simp [loopState]
  | succ u ih =>
    show (loopTick D tstamp fast slow u (loopState D tstamp fast slow u)).next.j
        = (u + 1) % D
    rw [succ_mod_helper D u hD]
    simp [loopTick, ih]

theorem loopCache (D : Nat) (tstamp : Nat → ℚ) (fast slow : List SensorModel)
    (hD : 1 ≤ D) :
    ∀ t, (loopState D tstamp fast slow (t + 1)).cache
      = sampleJoin slow (t - t % D) := by
  intro t
  induction t with
  | zero =>
    show (loopTick D tstamp fast slow 0 (loopState D tstamp fast slow 0)).next.cache
        = sampleJoin slow (0 - 0 % D)
    simp [loopTick, loopState]
  | succ u ih =>
    have hj : (loopState D tstamp fast slow (u + 1)).j = (u + 1) % D :=
      loopState_j D tstamp fast slow hD (u + 1)
    show (loopTick D tstamp fast slow (u + 1)
        (loopState D tstamp fast slow (u + 1))).next.cache
      = sampleJoin slow (u + 1 - (u + 1) % D)
    by_cases h : (u + 1) % D = 0
    · simp [loopTick, hj, h]
    · simp only [loopTick, hj, if_neg h, ih]
      congr 1
      have h2 := succ_mod_helper D u hD
      have hmod : u % D ≤ u := Nat.mod_le u D
      by_cases h3 : u % D + 1 = D
      · exact absurd (by rw [h2, if_pos h3]) h
      · have h4 : (u + 1) % D = u % D + 1 := by rw [h2, if_neg h3]
        omega

theorem loopRow (D : Nat) (tstamp : Nat → ℚ) (fast slow : List SensorModel)
    (hD : 1 ≤ D) (t : Nat) :
    (loopOutput D tstamp fast slow t).row
      = tstamp t :: (sampleJoin fast t ++ sampleJoin slow (t - t % D)) := by
  have hc : (loopOutput D tstamp fast slow t).row
      = (tstamp t :: sampleJoin fast t) ++
        (loopState D tstamp fast slow (t + 1)).cache := rfl
  rw [hc, loopCache D tstamp fast slow hD t, List.cons_append]

theorem loopResampled (D : Nat) (tstamp : Nat → ℚ) (fast slow : List SensorModel)
    (hD : 1 ≤ D) (t : Nat) :
    ((loopOutput D tstamp fast slow t).resampled = true ↔ t % D = 0) := by
  have hj := loopState_j D tstamp fast slow hD t
  show ((loopState D tstamp fast slow t).j == 0) = true ↔ t % D = 0
  rw [hj]
  exact beq_iff_eq

theorem sampleJoin_length (sensors : List SensorModel) (t : Nat)
    (h : ∀ s ∈ sensors, (s.sample t).length = s.width) :
    (sampleJoin sensors t).length = (sensors.map SensorModel.width).sum := by
  induction sensors with
  | nil => simp [sampleJoin]
  | cons a l ih =>
    have ha := h a (by simp)
    have hl : ∀ s ∈ l, (s.sample t).length = s.width := by
      intro s hs
      exact h s (by simp [hs])
    simp [sampleJoin, List.flatten] at *
    rw [ha, ih hl]

/-- Claim C1: with slow period `D ≥ 1`, the slow sources are resampled (in
configured order) exactly on ticks `t` with `t % D = 0` (including tick 0),
replacing the cache wholesale; on every other tick the slow-loop portion of
the emitted row equals the row-set produced at the most recent resample tick
`t - t % D`. -/
theorem scheduler_resample_cadence (D : Nat) (tstamp : Nat → ℚ)
    (fast slow : List SensorModel) (hD : 1 ≤ D) (t : Nat) :
    ((loopOutput D tstamp fast slow t).resampled = true ↔ t % D = 0) ∧
    (loopOutput D tstamp fast slow t).row
      = tstamp t :: (sampleJoin fast t ++ sampleJoin slow (t - t % D)) :=
  ⟨loopResampled D tstamp fast slow hD t, loopRow D tstamp fast slow hD t⟩

/-- Concrete fast sensor with three metrics, used to instantiate the
scheduler theorems. -/
def fastDemo : SensorModel := ⟨3, fun t => [(t : ℚ), (t : ℚ) + 1, (t : ℚ) + 2]⟩

/-- Concrete slow sensor with two metrics, used to instantiate the
scheduler theorems. -/
def slowDemo : SensorModel := ⟨2, fun t => [10 * (t : ℚ), 10 * (t : ℚ) + 1]⟩

/-- Concrete timestamp stream for witnesses. -/
def tsDemo : Nat → ℚ := fun t => (t : ℚ)

/-- Witness for C1 at `D = 3`, tick 4. -/
theorem scheduler_resample_cadence_witness :
    ((loopOutput 3 tsDemo [fastDemo] [slowDemo] 4).resampled = true ↔ 4 % 3 = 0) ∧
    (loopOutput 3 tsDemo [fastDemo] [slowDemo] 4).row
      = tsDemo 4 :: (sampleJoin [fastDemo] 4 ++ sampleJoin [slowDemo] (4 - 4 % 3)) :=
  scheduler_resample_cadence 3 tsDemo [fastDemo] [slowDemo] (by decide) 4

/-- Claim C2: on every tick the emitted row is the timestamp followed by the
concatenated fast rows followed by the slow row-set (cached or fresh), so
provided every sensor's sample rows have its declared width, the total row
width is `1 + sum of fast widths + sum of slow widths` on every tick of an
arbitrary-length run. -/
theorem row_width_invariant (D : Nat) (tstamp : Nat → ℚ)
    (fast slow : List SensorModel) (hD : 1 ≤ D)
    (hw : ∀ s ∈ fast ++ slow, ∀ u, (s.sample u).length = s.width) (t : Nat) :
    (loopOutput D tstamp fast slow t).row
      = tstamp t :: (sampleJoin fast t ++ sampleJoin slow (t - t % D)) ∧
    (loopOutput D tstamp fast slow t).row.length
      = 1 + ((fast.map SensorModel.width).sum + (slow.map SensorModel.width).sum) := by
  have hrow := loopRow D tstamp fast slow hD t
  refine ⟨hrow, ?_⟩
  rw [hrow]
  have hf : ∀ s ∈ fast, (s.sample t).length = s.width := by
    intro s hs
    exact hw s (by simp [hs]) t
  have hs : ∀ s ∈ slow, (s.sample (t - t % D)).length = s.width := by
    intro s hsm
    exact hw s (by simp [hsm]) (t - t % D)
  simp [sampleJoin_length fast t hf, sampleJoin_length slow (t - t % D) hs]
  omega

/-- Witness for C2 at `D = 3`, tick 5, with a 3-metric fast sensor and a
2-metric slow sensor. -/
theorem row_width_invariant_witness :
    (loopOutput 3 tsDemo [fastDemo] [slowDemo] 5).row
      = tsDemo 5 :: (sampleJoin [fastDemo] 5 ++ sampleJoin [slowDemo] (5 - 5 % 3)) ∧
    (loopOutput 3 tsDemo [fastDemo] [slowDemo] 5).row.length
      = 1 + (([fastDemo].map SensorModel.width).sum + (([slowDemo].map SensorModel.width).sum)) := by
  refine row_width_invariant 3 tsDemo [fastDemo] [slowDemo] (by decide) ?_ 5
  intro s hs u
  simp only [List.cons_append, List.nil_append, List.mem_cons, List.not_mem_nil, or_false] at hs
  rcases hs with rfl | rfl
  · simp [fastDemo]
  · simp [slowDemo]

/-! ## Weather sensor (`weather.rs`) -/

/-- The `main` JSON section (`MainData` in `weather.rs`). -/
structure MainData where
  temp : ℚ
  pressure : ℚ
  humidity : ℚ
deriving DecidableEq

/-- The `wind` JSON section (`WindData` in `weather.rs`). -/
structure WindData where
  speed : ℚ
  deg : ℚ
deriving DecidableEq

/-- The `clouds` JSON section (`CloudData` in `weather.rs`). -/
structure CloudData where
  all : ℚ
deriving DecidableEq

/-- One entry of the `weather` JSON array (`WeatherData` in `weather.rs`). -/
structure WeatherData where
  id : ℚ
deriving DecidableEq

/-- A successfully parsed OpenWeatherMap payload (`WeatherInfo` in
`weather.rs`): the `weather` array is mandatory, the other sections are
optional. -/
structure WeatherInfo where
  weather : List WeatherData
  main : Option MainData
  visibility : Option ℚ
  wind : Option WindData
  clouds : Option CloudData
deriving DecidableEq

namespace WeatherSensor

/-- The weather metric suffixes (`NAMES` in `weather.rs`). -/
def weatherMetricNames : List String :=
  ["temperature", "humidity", "pressure", "visibility", "wind_speed",
   "wind_direction", "cloud_coverage", "description"]

/-- `WeatherSensor::get_names`: one name per metric, prefixed by the sensor
name. -/
def getNames (name : String) : List String :=
  weatherMetricNames.map (fun m => name ++ "_" ++ m)

/-- `WeatherSensor::measure`, as a function of the HTTP outcome. The result
is `none` when the Rust code panics: after a successful parse the code
indexes `weather.weather[0]`, which is out of bounds when the `weather`
array is empty. All fetch failures return the full sentinel row; missing
optional sections are defaulted field-wise to `-1.0`. -/
def measure (resp : Fetch WeatherInfo) : Option (List ℚ) :=
  match resp with
  | .transportErr => some (List.replicate 8 (-1))
  | .response status body =>
    if status ≠ 200 then some (List.replicate 8 (-1))
    else
      match body with
      | .readErr => some (List.replicate 8 (-1))
      | .parseErr => some (List.replicate 8 (-1))
      | .ok w =>
        match w.weather with
        | [] => none
        | w0 :: _ =>
          some [(w.main.getD ⟨-1, -1, -1⟩).temp,
                (w.main.getD ⟨-1, -1, -1⟩).humidity,
                (w.main.getD ⟨-1, -1, -1⟩).pressure,
                w.visibility.getD (-1),
                (w.wind.getD ⟨-1, -1⟩).speed,
                (w.wind.getD ⟨-1, -1⟩).deg,
                (w.clouds.getD ⟨-1⟩).all,
                w0.id]

end WeatherSensor

/-- Claim C3 (refuted by the code, modelled panic): a 200 response whose JSON
parses with an empty `weather` array makes `WeatherSensor::measure` index
`weather.weather[0]` out of bounds and panic instead of returning a row;
`none` is the embedding of that panic. (`PowerSensor::measure` likewise
panics, via `unwrap`, on any I2C error.) -/
theorem weather_panic_on_empty_weather_array :
    WeatherSensor.measure (.response 200 (.ok ⟨[], none, none, none, none⟩))
      = none := rfl

/-! ## Power sensor (`power.rs`) -/

/-- The observable I2C interactions of `PowerSensor::measure`: the INA219
calibration write, the wake sequence, a register read, and the sleep
sequence. -/
inductive PowerEvent where
  | calibrate : PowerEvent
  | wake : PowerEvent
  | readReg : Nat → PowerEvent
  | sleepDev : PowerEvent
deriving DecidableEq

/-- Behaviour of the I2C bus and INA219 device during one `measure` call:
whether opening the bus, calibrating, waking and sleeping succeed, and the
raw register values (`none` = failed read) for the bus-voltage (0x02),
current (0x04) and power (0x03) registers. -/
structure PowerEnv where
  devOk : Bool
  calOk : Bool
  wakeOk : Bool
  readVoltage : Option Nat
  readCurrent : Option Nat
  readPower : Option Nat
  sleepOk : Bool
deriving DecidableEq

namespace PowerSensor

/-- `PowerSensor::get_names`: `NAMES` is `["voltage", "current", "power"]`. -/
def getNames (name : String) : List String :=
  ["voltage", "current", "power"].map (fun m => name ++ "_" ++ m)

/-- `PowerSensor::measure`: open the bus, calibrate, wake, read the three
registers, sleep, then return `[0,0,0]` when the computed power is
non-positive and `[voltage, current, power]` otherwise. Every failing
operation is `unwrap`ped in the Rust code, i.e. panics: modelled as `none`
with the trace of operations attempted up to that point. The calibration
register value does not influence any returned reading and is elided. -/
def measure (lsb : ℚ) (env : PowerEnv) : List PowerEvent × Option (List ℚ) :=
  if ¬ env.devOk then ([], none)
  else if ¬ env.calOk then ([.calibrate], none)
  else if ¬ env.wakeOk then ([.calibrate, .wake], none)
  else
    match env.readVoltage with
    | none => ([.calibrate, .wake, .readReg 2], none)
    | some v =>
      match env.readCurrent with
      | none => ([.calibrate, .wake, .readReg 2, .readReg 4], none)
      | some c =>
        match env.readPower with
        | none => ([.calibrate, .wake, .readReg 2, .readReg 4, .readReg 3], none)
        | some p =>
          if ¬ env.sleepOk then
            ([.calibrate, .wake, .readReg 2, .readReg 4, .readReg 3, .sleepDev], none)
          else if ((p : ℚ) * 20 * lsb * 1000) ≤ 0 then
            ([.calibrate, .wake, .readReg 2, .readReg 4, .readReg 3, .sleepDev],
             some [0, 0, 0])
          else
            ([.calibrate, .wake, .readReg 2, .readReg 4, .readReg 3, .sleepDev],
             some [((v >>> 3 : Nat) : ℚ) * 4 / 1000,
                   (c : ℚ) * 1000 * lsb,
                   (p : ℚ) * 20 * lsb * 1000])

end PowerSensor

/-- A device behaviour on which the current-register read fails after the
wake sequence succeeded. -/
def powerReadFailEnv : PowerEnv :=
  { devOk := true, calOk := true, wakeOk := true,
    readVoltage := some 100, readCurrent := none, readPower := some 7,
    sleepOk := true }

/-- Claim C8 (refuted by the code): when an I2C read fails after the device
was woken, `PowerSensor::measure` panics (`unwrap`) without ever executing
the sleep sequence, so the device is not returned to its low-power state on
that exit path. -/
theorem power_sleep_skipped_on_read_error :
    PowerSensor.measure 1 powerReadFailEnv
      = ([.calibrate, .wake, .readReg 2, .readReg 4], none) ∧
    PowerEvent.sleepDev ∉ (PowerSensor.measure 1 powerReadFailEnv).1 := by
  constructor
  · rfl
  · decide

/-- Claim C9: whenever every device operation succeeds and the computed power
reading is non-positive, `PowerSensor::measure` returns the all-zero row
`[0, 0, 0]` (not a sentinel row), regardless of the measured voltage and
current registers. -/
theorem power_nonpositive_collapses_to_zero (lsb : ℚ) (env : PowerEnv)
    (v c p : Nat)
    (hdev : env.devOk = true) (hcal : env.calOk = true)
    (hwake : env.wakeOk = true) (hsleep : env.sleepOk = true)
    (hv : env.readVoltage = some v) (hc : env.readCurrent = some c)
    (hp : env.readPower = some p)
    (hpow : ((p : ℚ) * 20 * lsb * 1000) ≤ 0) :
    (PowerSensor.measure lsb env).2 = some [0, 0, 0] := by
  simp [PowerSensor.measure, hdev, hcal, hwake, hsleep, hv, hc, hp, hpow]

/-- A fully healthy device whose power register reads zero. -/
def powerZeroEnv : PowerEnv :=
  { devOk := true, calOk := true, wakeOk := true,
    readVoltage := some 800, readCurrent := some 3, readPower := some 0,
    sleepOk := true }

/-- Witness for C9: with power register 0 the row collapses to `[0,0,0]`. -/
theorem power_nonpositive_collapses_to_zero_witness :
    (PowerSensor.measure 1 powerZeroEnv).2 = some [0, 0, 0] :=
  power_nonpositive_collapses_to_zero 1 powerZeroEnv 800 3 0
    rfl rfl rfl rfl rfl rfl rfl (by norm_num)

/-! ## Fritz!Box sensor (`fritz.rs`) -/

/-- The XML document returned by `login_sid.lua` (`LoginResponse` in
`fritz.rs`): a session id and a challenge. -/
structure LoginResponse where
  sid : String
  challenge : String
deriving DecidableEq

/-- The observable backend interactions of `FritzSensor::measure`: the
challenge fetch, the challenge-response login fetch, and one value fetch per
switch command carrying the session id used. -/
inductive FritzEvent where
  | challengeGet : FritzEvent
  | loginGet : FritzEvent
  | valueGet : String → String → FritzEvent
deriving DecidableEq

/-- Behaviour of the Fritz!Box backend during one `measure` call: the
response to the initial challenge request, the response to the login
request, and the response to each value request given the command and the
session id presented. -/
structure FritzEnv where
  challengeResp : Fetch LoginResponse
  loginResp : Fetch LoginResponse
  valueResp : String → String → Fetch ℚ

namespace FritzSensor

/-- The metric suffixes (`METRICS` in `fritz.rs`). -/
def getNames (name : String) : List String :=
  ["power", "energy", "temperature"].map (fun m => name ++ "_" ++ m)

/-- The switch commands issued by `measure`, in order. -/
def commands : List String :=
  ["getswitchpower", "getswitchenergy", "gettemperature"]

/-- `FritzSensor::get_token`: fetch the challenge document, answer with the
hashed challenge response, and return the session id from the second
document. Any transport error, non-200 status, or read/parse failure of
either exchange is an error (`none`). The first component is the trace of
backend calls made. The MD5/UTF-16LE digest computation does not branch and
does not influence which calls are made, so its value is not modelled. -/
def getToken (env : FritzEnv) : List FritzEvent × Option String :=
  match env.challengeResp with
  | .transportErr => ([.challengeGet], none)
  | .response st body =>
    if st ≠ 200 then ([.challengeGet], none)
    else
      match body with
      | .readErr => ([.challengeGet], none)
      | .parseErr => ([.challengeGet], none)
      | .ok _ =>
        match env.loginResp with
        | .transportErr => ([.challengeGet, .loginGet], none)
        | .response st2 body2 =>
          if st2 ≠ 200 then ([.challengeGet, .loginGet], none)
          else
            match body2 with
            | .readErr => ([.challengeGet, .loginGet], none)
            | .parseErr => ([.challengeGet, .loginGet], none)
            | .ok doc2 => ([.challengeGet, .loginGet], some doc2.sid)

/-- `FritzSensor::get_value`: fetch one switch command with the given session
id; transport error, non-200 status, read failure or an unparsable numeric
body are errors. -/
def getValue (env : FritzEnv) (cmd sid : String) : Option ℚ :=
  match env.valueResp cmd sid with
  | .transportErr => none
  | .response st body =>
    if st ≠ 200 then none
    else
      match body with
      | .readErr => none
      | .parseErr => none
      | .ok v => some v

/-- `FritzSensor::measure`: acquire a fresh session id, then fetch the three
commands with it, substituting `-1.0` for each individual command that
fails; if token acquisition itself fails, return `[-1, -1, -1]` without any
value fetch. The struct holds no session field, so this runs in full on
every call. -/
def measure (env : FritzEnv) : List FritzEvent × List ℚ :=
  match getToken env with
  | (evs, some sid) =>
    (evs ++ commands.map (fun c => .valueGet c sid),
     commands.map (fun c => (getValue env c sid).getD (-1)))
  | (evs, none) => (evs, [-1, -1, -1])

theorem getToken_cases (env : FritzEnv) :
    (∃ sid, getToken env = ([.challengeGet, .loginGet], some sid)) ∨
    getToken env = ([.challengeGet], none) ∨
    getToken env = ([.challengeGet, .loginGet], none) := by
  unfold getToken
  rcases env.challengeResp with _ | ⟨st, body⟩
  · simp
  · by_cases hst : st ≠ 200
    · simp [hst]
    · rcases body with _ | _ | doc
      · simp [hst]
      · simp [hst]
      · rcases env.loginResp with _ | ⟨st2, body2⟩
        · simp [hst]
        · by_cases hst2 : st2 ≠ 200
          · simp [hst, hst2]
          · rcases body2 with _ | _ | doc2 <;> simp [hst, hst2]

theorem getToken_events_of_some (env : FritzEnv) (sid : String)
    (h : (getToken env).2 = some sid) :
    (getToken env).1 = [.challengeGet, .loginGet] := by
  rcases getToken_cases env with ⟨sid2, hs⟩ | hs | hs <;> simp_all

theorem getToken_events_of_none (env : FritzEnv)
    (h : (getToken env).2 = none) :
    (getToken env).1 = [.challengeGet] ∨
      (getToken env).1 = [.challengeGet, .loginGet] := by
  rcases getToken_cases env with ⟨sid2, hs⟩ | hs | hs <;> simp_all

/-- Claim C10: the Fritz source holds no session between samples — every
`measure` call starts with the challenge fetch; when token acquisition
succeeds the trace is exactly challenge fetch, login fetch, then the three
value fetches all carrying the freshly obtained session id; when it fails,
no value is fetched at all. -/
theorem fritz_full_auth_every_sample (env : FritzEnv) (sid : String) :
    ((measure env).1.head? = some .challengeGet) ∧
    ((getToken env).2 = some sid →
      (measure env).1
        = [.challengeGet, .loginGet, .valueGet "getswitchpower" sid,
           .valueGet "getswitchenergy" sid, .valueGet "gettemperature" sid]) ∧
    ((getToken env).2 = none →
      ∀ c s, FritzEvent.valueGet c s ∉ (measure env).1) := by
  refine ⟨?_, ?_, ?_⟩
  · show (measure env).1.head? = some .challengeGet
    unfold measure
    rcases hg : getToken env with ⟨evs, tok⟩
    have hevs : evs = (getToken env).1 := by rw [hg]
    rcases tok with _ | sid0
    · rcases getToken_events_of_none env (by rw [hg]) with h | h <;>
        simp [hevs ▸ h]
    · have h := getToken_events_of_some env sid0 (by rw [hg])
      simp [hevs ▸ h, commands]
  · intro h
    have hev := getToken_events_of_some env sid h
    unfold measure
    rcases hg : getToken env with ⟨evs, tok⟩
    rw [hg] at h hev
    simp at h hev
    subst h hev
    simp [commands]
  · intro h c s
    have hev := getToken_events_of_none env h
    unfold measure
    rcases hg : getToken env with ⟨evs, tok⟩
    rw [hg] at h hev
    simp at h hev
    subst h
    rcases hev with h | h <;> subst h <;> simp

end FritzSensor

/-- A Fritz backend where login succeeds with sid `sid99` but the
`getswitchpower` value fetch returns status 406, while the other two value
fetches succeed with 1200 and 100. -/
def fritzPartialFailEnv : FritzEnv :=
  { challengeResp := .response 200 (.ok ⟨"0000000000000000", "1234abcd"⟩)
    loginResp := .response 200 (.ok ⟨"sid99", "1234abcd"⟩)
    valueResp := fun cmd _ =>
      if cmd = "getswitchpower" then .response 406 .readErr
      else if cmd = "getswitchenergy" then .response 200 (.ok 1200)
      else .response 200 (.ok 100) }

/-- A Fritz backend whose very first (challenge) request fails at the
transport level, so token acquisition fails. -/
def fritzTokenFailEnv : FritzEnv :=
  { challengeResp := .transportErr
    loginResp := .transportErr
    valueResp := fun _ _ => .transportErr }

/-- Witness for C10 at a concrete backend with a successful login. -/
theorem fritz_full_auth_every_sample_witness :
    (FritzSensor.measure fritzPartialFailEnv).1
      = [.challengeGet, .loginGet, .valueGet "getswitchpower" "sid99",
         .valueGet "getswitchenergy" "sid99", .valueGet "gettemperature" "sid99"] :=
  (FritzSensor.fritz_full_auth_every_sample fritzPartialFailEnv "sid99").2.1 rfl

/-- Counterexample to claim C4 as stated: on `fritzPartialFailEnv` one metric
fetch fails (a non-200 status, an internal transport-level failure) after a
successful login, yet the returned row is `[-1, 1200, 100]` — only the
failed metric carries the sentinel, the others keep their measured values. -/
theorem fritz_partial_sentinel_counterexample :
    (FritzSensor.measure fritzPartialFailEnv).2 = [-1, 1200, 100] ∧
    (FritzSensor.measure fritzPartialFailEnv).2 ≠ List.replicate 3 (-1) := by
  constructor
  · rfl
  · decide

/-! ## FoxESS cloud sensor (`foxess.rs`) -/

/-- The parsed login response (`TokenResponse` in `foxess.rs`): an
application error code and the token inside `result`. -/
structure TokenResponse where
  errno : Nat
  token : String
deriving DecidableEq

/-- The parsed history query response (`DataResponse` in `foxess.rs`): an
application error code and, per requested variable, the series of data
values. -/
structure DataResponse where
  errno : Nat
  result : List (List ℚ)
deriving DecidableEq

/-- The observable backend interactions of `FoxEssSensor::measure`: the login
post, the token-validation probe, and the history query — the latter two
carrying the token presented. -/
inductive FoxEvent where
  | loginCall : FoxEvent
  | testCall : String → FoxEvent
  | queryCall : String → FoxEvent
deriving DecidableEq

/-- Behaviour of the FoxESS backend during one `measure` call: the response
to the login post, and the responses to the status probe and the history
query as functions of the token presented. -/
structure FoxEnv where
  loginResp : Fetch TokenResponse
  statusResp : String → Fetch Nat
  queryResp : String → Fetch DataResponse

/-- Result of one `FoxEssSensor::measure` call: the trace of backend calls,
the returned row, and the value of the `token` field after the call. -/
structure FoxOut where
  events : List FoxEvent
  row : List ℚ
  token : String
deriving DecidableEq

namespace FoxEssSensor

/-- `FoxEssSensor::get_names`: one name per configured variable. -/
def getNames (name : String) (vars : List String) : List String :=
  vars.map (fun m => name ++ "_" ++ m)

/-- `FoxEssSensor::get_token`: post the credentials; transport error, non-200
status, read/parse failure or a non-zero `errno` are errors, otherwise the
token of the response is returned. -/
def getToken (env : FoxEnv) : Option String :=
  match env.loginResp with
  | .transportErr => none
  | .response st body =>
    if st ≠ 200 then none
    else
      match body with
      | .readErr => none
      | .parseErr => none
      | .ok doc => if doc.errno ≠ 0 then none else some doc.token

/-- `FoxEssSensor::test_token`: probe `device/status/all` with the token;
transport error, non-200 status, read/parse failure or a non-zero `errno`
are errors, otherwise the token is confirmed valid. -/
def testToken (env : FoxEnv) (token : String) : Option Unit :=
  match env.statusResp token with
  | .transportErr => none
  | .response st body =>
    if st ≠ 200 then none
    else
      match body with
      | .readErr => none
      | .parseErr => none
      | .ok errno => if errno ≠ 0 then none else some ()

/-- The per-series extraction loop of `do_query`: take the last value of
each series, failing if any series is empty. -/
def lastColumn : List (List ℚ) → Option (List ℚ)
  | [] => some []
  | s :: rest =>
    match s.getLast? with
    | none => none
    | some v =>
      match lastColumn rest with
      | none => none
      | some r => some (v :: r)

/-- `FoxEssSensor::do_query`: post the history query with the token;
transport error, non-200 status, read/parse failure, non-zero `errno`, a
series count different from the requested variable count, or an empty
series are all errors; otherwise the row is the last value of each series
in order. -/
def doQuery (vars : List String) (env : FoxEnv) (token : String) :
    Option (List ℚ) :=
  match env.queryResp token with
  | .transportErr => none
  | .response st body =>
    if st ≠ 200 then none
    else
      match body with
      | .readErr => none
      | .parseErr => none
      | .ok doc =>
        if doc.errno ≠ 0 then none
        else if doc.result.length ≠ vars.length then none
        else lastColumn doc.result

/-- `FoxEssSensor::measure`: if no token is held (`"n/a"`), acquire one; else
validate the held token and re-acquire once on a failed validation. A failed
acquisition returns the sentinel row early, leaving the stored token
unchanged (the assignment in the Rust code is skipped by the early
`return`). With a token in hand, run the query, returning its row or the
sentinel row. -/
def measure (vars : List String) (env : FoxEnv) (token : String) :
    FoxOut :=
  if token = "n/a" then
    match getToken env with
    | none => ⟨[.loginCall], List.replicate vars.length (-1), token⟩
    | some t =>
      match doQuery vars env t with
      | none => ⟨[.loginCall, .queryCall t], List.replicate vars.length (-1), t⟩
      | some r => ⟨[.loginCall, .queryCall t], r, t⟩
  else
    match testToken env token with
    | some _ =>
      match doQuery vars env token with
      | none => ⟨[.testCall token, .queryCall token],
          List.replicate vars.length (-1), token⟩
      | some r => ⟨[.testCall token, .queryCall token], r, token⟩
    | none =>
      match getToken env with
      | none => ⟨[.testCall token, .loginCall],
          List.replicate vars.length (-1), token⟩
      | some t =>
        match doQuery vars env t with
        | none => ⟨[.testCall token, .loginCall, .queryCall t],
            List.replicate vars.length (-1), t⟩
        | some r => ⟨[.testCall token, .loginCall, .queryCall t], r, t⟩

end FoxEssSensor

/-- Claim C5: holding a valid session (a token other than `"n/a"` whose
validation probe succeeds), `measure` does not re-invoke the acquire step:
the backend sees exactly the validation probe and the data query, both with
the unchanged token, and the stored token is unchanged afterwards. -/
theorem fox_session_reuse (vars : List String) (env : FoxEnv)
    (token : String) (h1 : token ≠ "n/a")
    (h2 : FoxEssSensor.testToken env token = some ()) :
    (FoxEssSensor.measure vars env token).events
      = [.testCall token, .queryCall token] ∧
    FoxEvent.loginCall ∉ (FoxEssSensor.measure vars env token).events ∧
    (FoxEssSensor.measure vars env token).token = token := by
  unfold FoxEssSensor.measure
  rw [if_neg h1, h2]
  rcases hq : FoxEssSensor.doQuery vars env token with _ | r <;> simp

/-- A FoxESS backend on which the validation probe and the login both fail at
the application level (`errno = 40000`), while the query endpoint would
succeed. -/
def foxAuthFailEnv : FoxEnv :=
  { loginResp := .response 200 (.ok ⟨40000, ""⟩)
    statusResp := fun _ => .response 200 (.ok 40000)
    queryResp := fun _ => .response 200 (.ok ⟨0, [[1], [2]]⟩) }

/-- Witness for C5: a backend whose probe and query succeed for token
`"abc"`. -/
def foxHappyEnv : FoxEnv :=
  { loginResp := .response 200 (.ok ⟨0, "fresh"⟩)
    statusResp := fun _ => .response 200 (.ok 0)
    queryResp := fun _ => .response 200 (.ok ⟨0, [[1, 5], [2]]⟩) }

/-- Witness for C5 at a concrete backend and held token `"abc"`. -/
theorem fox_session_reuse_witness :
    (FoxEssSensor.measure ["a", "b"] foxHappyEnv "abc").events
      = [.testCall "abc", .queryCall "abc"] ∧
    FoxEvent.loginCall ∉ (FoxEssSensor.measure ["a", "b"] foxHappyEnv "abc").events ∧
    (FoxEssSensor.measure ["a", "b"] foxHappyEnv "abc").token = "abc" :=
  fox_session_reuse ["a", "b"] foxHappyEnv "abc" (by decide) rfl

/-- Counterexample to claim C6 as stated: on `foxAuthFailEnv` with held token
`"abc"`, validation fails and the single re-acquire also fails; the row is
sentinel-filled as claimed, but the session does not reset to the
unauthenticated `"n/a"` state — the stale token `"abc"` is kept. -/
theorem fox_no_reset_counterexample :
    FoxEssSensor.testToken foxAuthFailEnv "abc" = none ∧
    FoxEssSensor.getToken foxAuthFailEnv = none ∧
    FoxEssSensor.measure ["a", "b"] foxAuthFailEnv "abc"
      = ⟨[.testCall "abc", .loginCall], List.replicate 2 (-1), "abc"⟩ ∧
    ("abc" : String) ≠ "n/a" := by
  refine ⟨rfl, rfl, ?_, by decide⟩
  decide

/-- Claim C6 as amended: when the validation probe fails, exactly one
re-acquire attempt occurs before the query; if the re-acquire also fails,
the row is fully sentinel-filled — but the session keeps the stale token
instead of resetting to `"n/a"`, so the next tick again probes validation
with the stale token and falls back to acquire, rather than acquiring from
scratch. -/
theorem fox_session_invalidation (vars : List String) (env : FoxEnv)
    (token : String) (h1 : token ≠ "n/a")
    (h2 : FoxEssSensor.testToken env token = none) :
    ((FoxEssSensor.measure vars env token).events.count .loginCall = 1) ∧
    (FoxEssSensor.getToken env = none →
      (FoxEssSensor.measure vars env token).row
          = List.replicate vars.length (-1) ∧
      (FoxEssSensor.measure vars env token).token = token) ∧
    (∀ t, FoxEssSensor.getToken env = some t →
      (FoxEssSensor.measure vars env token).events
          = [.testCall token, .loginCall, .queryCall t] ∧
      (FoxEssSensor.measure vars env token).token = t) := by
  unfold FoxEssSensor.measure
  rw [if_neg h1, h2]
  rcases hg : FoxEssSensor.getToken env with _ | t
  · simp [List.count_cons, List.count_nil]
  · rcases hq : FoxEssSensor.doQuery vars env t with _ | r <;>
      simp [hq, List.count_cons, List.count_nil, beq_iff_eq]

/-- Witness for C6 (amended) on `foxAuthFailEnv` with held token `"abc"`. -/
theorem fox_session_invalidation_witness :
    ((FoxEssSensor.measure ["a", "b"] foxAuthFailEnv "abc").events.count
        .loginCall = 1) ∧
    (FoxEssSensor.measure ["a", "b"] foxAuthFailEnv "abc").row
        = List.replicate 2 (-1) ∧
    (FoxEssSensor.measure ["a", "b"] foxAuthFailEnv "abc").token = "abc" := by
  have h := fox_session_invalidation ["a", "b"] foxAuthFailEnv "abc"
    (by decide) rfl
  exact ⟨h.1, (h.2.1 rfl).1, (h.2.1 rfl).2⟩

/-! ## Sentinel-fill policy and row-width contract across sources -/

theorem lastColumn_length (l : List (List ℚ)) (r : List ℚ)
    (h : FoxEssSensor.lastColumn l = some r) : r.length = l.length := by
  induction l generalizing r with
  | nil =>
    simp [FoxEssSensor.lastColumn] at h
    simp [← h]
  | cons s rest ih =>
    unfold FoxEssSensor.lastColumn at h
    rcases hs : s.getLast? with _ | v <;> rw [hs] at h
    · simp at h
    · rcases hrest : FoxEssSensor.lastColumn rest with _ | r2 <;>
        rw [hrest] at h
      · simp at h
      · simp at h
        rw [← h]
        simp [ih r2 hrest]

theorem doQuery_length (vars : List String) (env : FoxEnv) (token : String)
    (r : List ℚ) (h : FoxEssSensor.doQuery vars env token = some r) :
    r.length = vars.length := by
  unfold FoxEssSensor.doQuery at h
  rcases hqr : env.queryResp token with _ | ⟨st, body⟩ <;> rw [hqr] at h
  · simp at h
  · by_cases hst : st ≠ 200
    · simp [hst] at h
    · rcases body with _ | _ | doc
      · simp [hst] at h
      · simp [hst] at h
      · simp [hst] at h
        rw [lastColumn_length doc.result r h.2.2, h.2.1]

theorem fox_measure_row_shape (vars : List String) (env : FoxEnv)
    (token : String) :
    (FoxEssSensor.measure vars env token).row
        = List.replicate vars.length (-1) ∨
    ∃ t r, FoxEssSensor.doQuery vars env t = some r ∧
      (FoxEssSensor.measure vars env token).row = r := by
  unfold FoxEssSensor.measure
  by_cases h0 : token = "n/a"
  · rw [if_pos h0]
    rcases hg : FoxEssSensor.getToken env with _ | t
    · simp
    · rcases hq : FoxEssSensor.doQuery vars env t with _ | r
      · simp [hq]
      · right
        exact ⟨t, r, hq, by simp [hq]⟩
  · rw [if_neg h0]
    rcases ht : FoxEssSensor.testToken env token with _ | u
    · rcases hg : FoxEssSensor.getToken env with _ | t
      · simp
      · rcases hq : FoxEssSensor.doQuery vars env t with _ | r
        · simp [hq]
        · right
          exact ⟨t, r, hq, by simp [hq]⟩
    · rcases hq : FoxEssSensor.doQuery vars env token with _ | r
      · simp [hq]
      · right
        exact ⟨token, r, hq, by simp [hq]⟩

/-- Claim C7: for every source, on every execution path on which `measure`
returns a row, the row has exactly as many entries as `get_names()` returns
— including every failure path. -/
theorem names_and_sample_lengths_agree (nm : String) (vars : List String)
    (lsb : ℚ) (envW : Fetch WeatherInfo) (envF : FritzEnv) (envX : FoxEnv)
    (envP : PowerEnv) (token : String) (rW rP : List ℚ) :
    (WeatherSensor.measure envW = some rW →
      rW.length = (WeatherSensor.getNames nm).length) ∧
    ((FritzSensor.measure envF).2.length = (FritzSensor.getNames nm).length) ∧
    ((FoxEssSensor.measure vars envX token).row.length
        = (FoxEssSensor.getNames nm vars).length) ∧
    ((PowerSensor.measure lsb envP).2 = some rP →
      rP.length = (PowerSensor.getNames nm).length) := by
  refine ⟨?_, ?_, ?_, ?_⟩
  · intro h
    have h8 : (WeatherSensor.getNames nm).length = 8 := by
      simp [WeatherSensor.getNames, WeatherSensor.weatherMetricNames]
    rw [h8]
    unfold WeatherSensor.measure at h
    rcases envW with _ | ⟨st, body⟩
    · simp at h
      simp [← h]
    · by_cases hst : st ≠ 200
      · simp [hst] at h
        simp [← h]
      · rcases body with _ | _ | w <;> simp [hst] at h <;> try simp [← h]
        rcases hw : w.weather with _ | ⟨w0, rest⟩ <;> rw [hw] at h
        · simp at h
        · simp at h
          simp [← h]
  · unfold FritzSensor.measure
    rcases hg : FritzSensor.getToken envF with ⟨evs, tok⟩
    rcases tok with _ | sid <;>
      simp [FritzSensor.getNames, FritzSensor.commands]
  · rcases fox_measure_row_shape vars envX token with h | ⟨t, r, hq, h⟩ <;>
      rw [h]
    · simp [FoxEssSensor.getNames]
    · simp [FoxEssSensor.getNames, doQuery_length vars envX t r hq]
  · intro h
    have h3 : (PowerSensor.getNames nm).length = 3 := by
      simp [PowerSensor.getNames]
    rw [h3]
    unfold PowerSensor.measure at h
    rcases envP with ⟨dev, cal, wake, rv, rc, rp, slp⟩
    rcases dev <;> rcases cal <;> rcases wake <;> rcases slp <;> simp at h <;>
      rcases rv with _ | v <;> rcases rc with _ | c <;> rcases rp with _ | p <;>
      simp at h <;>
      first
        | (rcases h with ⟨h1, h2⟩; simp [← h2])
        | (split at h <;> simp at h <;> simp [← h])

/-- Witness for C7: weather transport failure gives an 8-wide sentinel row
matching the 8 weather names, and the partially failing Fritz backend gives
a 3-wide row matching the 3 Fritz names. -/
theorem names_and_sample_lengths_agree_witness :
    ((List.replicate 8 (-1 : ℚ)).length
        = (WeatherSensor.getNames "w").length) ∧
    ((FritzSensor.measure fritzPartialFailEnv).2.length
        = (FritzSensor.getNames "f").length) :=
  ⟨(names_and_sample_lengths_agree "w" [] 1 .transportErr fritzTokenFailEnv
      foxHappyEnv powerZeroEnv "n/a" (List.replicate 8 (-1)) []).1 rfl,
   (names_and_sample_lengths_agree "f" [] 1 .transportErr fritzPartialFailEnv
      foxHappyEnv powerZeroEnv "n/a" [] []).2.1⟩

/-- Claim C4 as amended: a failure of session/token acquisition (Fritz,
FoxESS) or of the whole fetch (weather transport error, non-200 status,
read or parse failure; any FoxESS query failure) fills every element of the
returned row with the sentinel `-1.0`; but when the Fritz login succeeds,
each of the three metric fetches fails or succeeds individually, so a
failing metric fetch sets only that metric to `-1.0` while successfully
fetched metrics keep their measured values. (Weather payloads with missing
optional sections similarly default only the missing fields.) -/
theorem sentinel_fill_policy (envW : Fetch WeatherInfo) (envF : FritzEnv)
    (envX : FoxEnv) (vars : List String) (token sid : String) :
    (envW.failed = true →
      WeatherSensor.measure envW = some (List.replicate 8 (-1))) ∧
    ((FritzSensor.getToken envF).2 = none →
      (FritzSensor.measure envF).2 = List.replicate 3 (-1)) ∧
    ((FritzSensor.getToken envF).2 = some sid →
      (FritzSensor.measure envF).2
        = FritzSensor.commands.map
            (fun c => (FritzSensor.getValue envF c sid).getD (-1))) ∧
    (token = "n/a" → FoxEssSensor.getToken envX = none →
      (FoxEssSensor.measure vars envX token).row
        = List.replicate vars.length (-1)) ∧
    (token ≠ "n/a" → FoxEssSensor.testToken envX token = none →
      FoxEssSensor.getToken envX = none →
      (FoxEssSensor.measure vars envX token).row
        = List.replicate vars.length (-1)) ∧
    ((∀ t, FoxEssSensor.doQuery vars envX t = none) →
      (FoxEssSensor.measure vars envX token).row
        = List.replicate vars.length (-1)) := by
  refine ⟨?_, ?_, ?_, ?_, ?_, ?_⟩
  · intro h
    unfold Fetch.failed at h
    unfold WeatherSensor.measure
    rcases envW with _ | ⟨st, body⟩
    · rfl
    · by_cases hst : st ≠ 200
      · simp [hst]
      · rcases body with _ | _ | w <;> simp [hst] at h ⊢
  · intro h
    unfold FritzSensor.measure
    rcases hg : FritzSensor.getToken envF with ⟨evs, tok⟩
    rw [hg] at h
    simp at h
    subst h
    simp
  · intro h
    unfold FritzSensor.measure
    rcases hg : FritzSensor.getToken envF with ⟨evs, tok⟩
    rw [hg] at h
    simp at h
    subst h
    simp
  · intro h0 hg
    unfold FoxEssSensor.measure
    rw [if_pos h0, hg]
  · intro h0 ht hg
    unfold FoxEssSensor.measure
    rw [if_neg h0, ht, hg]
  · intro hq
    unfold FoxEssSensor.measure
    by_cases h0 : token = "n/a"
    · rw [if_pos h0]
      rcases hg : FoxEssSensor.getToken envX with _ | t
      · rfl
      · simp [hq t]
    · rw [if_neg h0]
      rcases ht : FoxEssSensor.testToken envX token with _ | u
      · rcases hg : FoxEssSensor.getToken envX with _ | t
        · rfl
        · simp [hq t]
      · simp [hq token]

/-- Witness for C4 (amended): a weather transport failure yields the full
8-sentinel row, and a Fritz challenge transport failure yields the full
3-sentinel row. -/
theorem sentinel_fill_policy_witness :
    WeatherSensor.measure (Fetch.transportErr)
        = some (List.replicate 8 (-1)) ∧
    (FritzSensor.measure fritzTokenFailEnv).2 = List.replicate 3 (-1) :=
  ⟨(sentinel_fill_policy .transportErr fritzTokenFailEnv foxHappyEnv []
      "n/a" "").1 rfl,
   (sentinel_fill_policy .transportErr fritzTokenFailEnv foxHappyEnv []
      "n/a" "").2.1 rfl⟩
